import Mathlib

/-!
Verification of the invoice-parser core pipeline against its specification.

The development shallowly embeds three components of the backend:

* the File Gate (`src/backend/app/services/file_validator.py`),
* the Confidence Gate (`src/backend/app/services/confidence_scorer.py`),
* the Retry Executor (`src/backend/app/utils/retry.py`).

Conventions used throughout:

* Byte buffers are `List Nat`; only length and identity of the bytes matter
  to the validated properties.
* Python floats that carry confidence scores and delays are modelled as `ℚ`
  (the data model restricts confidences to [0.0, 1.0] and the claims use
  exact decimal constants, so rational arithmetic is faithful).
* A Python function that can raise is modelled with `Except`/`Option`.
* The message strings the source interpolates are modelled as structured
  values carrying exactly the data interpolated into the message
  (field path, confidence value, MIME types), so "the reason names the
  field and its confidence" is directly statable.
-/

namespace InvoiceParser

/- The Batteries `Rat` arithmetic operations are `@[irreducible]`, which
blocks `decide`-style evaluation of the embedding on concrete invoice
trees; restore the default reducibility for this development. -/
attribute [local semireducible] Rat.mul Rat.inv Rat.add Rat.sub

/-! ## File Gate — `file_validator.py` -/

/-- `MAX_FILE_SIZE = 5 * 1024 * 1024` from `file_validator.py`. -/
def MAX_FILE_SIZE : Nat := 5 * 1024 * 1024

/-- `ALLOWED_MIME_TYPES` from `file_validator.py` (a Python set; modelled as
the list of its elements, only membership is ever used). -/
def ALLOWED_MIME_TYPES : List String :=
  ["application/pdf", "text/plain", "text/markdown",
   "image/jpeg", "image/png", "image/tiff", "image/bmp",
   "image/webp", "image/heic", "image/heif", "image/gif"]

/-- `GENERIC_TYPES` from `validate_file`: the ambiguous fallback types
python-magic returns when the file signature is not specific. -/
def GENERIC_TYPES : List String :=
  ["application/octet-stream", "text/plain", "application/x-empty"]

/-- The five `HTTPException` raise sites of `validate_file`, as structured
rejection values carrying the data interpolated into each message. -/
inductive FileReject
  /-- 400: file is empty (0 bytes). -/
  | emptyInput
  /-- 413: file exceeds `MAX_FILE_SIZE`. -/
  | payloadTooLarge
  /-- 415 at stage 5 branch 1: a specific detected type outside the allow-list. -/
  | unsupportedDetected (detected : String)
  /-- 415 at stage 5 branch 2: generic detection and no allowed declared type. -/
  | unsupportedFallback (detected : String)
  /-- 415 at stage 6: declared allowed type disagrees with a specific detected type. -/
  | typeMismatch (declared detected : String)
  deriving DecidableEq, Repr

/-- HTTP status code attached to each raise site in `validate_file`. -/
def FileReject.statusCode : FileReject → Nat
  | .emptyInput => 400
  | .payloadTooLarge => 413
  | .unsupportedDetected _ => 415
  | .unsupportedFallback _ => 415
  | .typeMismatch _ _ => 415

/-- Python truthiness-plus-membership test
`declared_content_type and declared_content_type in ALLOWED_MIME_TYPES`
(`None` and `""` are falsy; `""` is not in the allow-list anyway). -/
def declaredAllowed : Option String → Bool
  | none => false
  | some s => decide (s ∈ ALLOWED_MIME_TYPES)

/-- Stages 6–7 of `validate_file`: the spoofing check followed by the final
MIME-type resolution.  Reached once stage 5 validation passed. -/
def finishValidation (content : List Nat) (declared : Option String)
    (detected : String) : Except FileReject (List Nat × Option String) :=
  if declaredAllowed declared ∧ detected ∉ GENERIC_TYPES ∧
      some detected ≠ declared then
    .error (.typeMismatch (declared.getD "") detected)
  else
    .ok (content, if detected ∉ GENERIC_TYPES then some detected else declared)

/-- `validate_file(file)` from `file_validator.py`.  The upload is split into
its content bytes, declared content type (`None` when the client sent no
Content-Type header) and the MIME type python-magic detects from the content
(`magic.from_buffer` is the external sniffing collaborator, passed as an
input).  Returns the content unchanged together with the resolved type, or
the structured rejection. -/
def validate_file (content : List Nat) (declared : Option String)
    (detected : String) : Except FileReject (List Nat × Option String) :=
  if content.length = 0 then
    .error .emptyInput
  else if MAX_FILE_SIZE < content.length then
    .error .payloadTooLarge
  else if detected ∉ GENERIC_TYPES then
    if detected ∉ ALLOWED_MIME_TYPES then
      .error (.unsupportedDetected detected)
    else
      finishValidation content declared detected
  else if ¬ declaredAllowed declared then
    .error (.unsupportedFallback detected)
  else
    finishValidation content declared detected

/-! ## Confidence Gate — `confidence_scorer.py`

The invoice data handed to `validate_confidence` is the JSON-ish nested
structure produced by deserializing the model response: dictionaries, lists,
numbers, strings, booleans, null.  Dictionaries are association lists (Python
dicts have unique keys; lookup takes the first match). -/

/-- The dynamic value tree `validate_confidence` operates on. -/
inductive Json
  | num (q : ℚ)
  | str (s : String)
  | bool (b : Bool)
  | null
  | arr (items : List Json)
  | obj (fields : List (String × Json))

/-- Python `d[k]` / `k in d` on a dict, as assoc-list lookup. -/
def jlookup (k : String) : List (String × Json) → Option Json
  | [] => none
  | (k', v) :: rest => if k' = k then some v else jlookup k rest

/-- Numeric check: the value is a Python number usable in `<` and `sum`.
`none` corresponds to a `TypeError` at the use site in the source. -/
def Json.asNum : Json → Option ℚ
  | .num q => some q
  | _ => none

/-- `CRITICAL_FIELDS` from `confidence_scorer.py`, in source order. -/
def CRITICAL_FIELDS : List String :=
  ["supplier.name", "customer.name", "invoice.number",
   "invoice.issue_date", "invoice.due_date", "invoice.total_amount"]

/-- `WARNING_THRESHOLD = 0.90`. -/
def WARNING_THRESHOLD : ℚ := 9/10

/-- `REJECTION_THRESHOLD = 0.50`. -/
def REJECTION_THRESHOLD : ℚ := 1/2

/-- The path-navigation loop of `_get_field_confidence`: follow each dot-path
part through nested dicts.  On a non-dict node every Python route (`in` on a
list/string, `TypeError` on indexing, the `except` clause) yields `None`. -/
def navigate : Json → List String → Option Json
  | t, [] => some t
  | .obj fs, p :: rest =>
      match jlookup p fs with
      | some v => navigate v rest
      | none => none
  | _, _ :: _ => none

/-- `field_path.split(".")`, written by structural recursion on the
characters so it evaluates inside the kernel; `acc` holds the characters of
the current part in reverse. -/
def splitDotAux : List Char → List Char → List String
  | [], acc => [String.mk acc.reverse]
  | c :: rest, acc =>
      if c = '.' then String.mk acc.reverse :: splitDotAux rest []
      else splitDotAux rest (c :: acc)

/-- Python `field_path.split(".")` from `_get_field_confidence`. -/
def splitDot (s : String) : List String := splitDotAux s.toList []

/-- `_get_field_confidence(invoice_data, field_path)`: navigate the dot path,
then return the `"confidence"` entry when the reached node is a dict carrying
one, else `None`.  The returned entry is whatever value the dict holds (the
source does not check it is numeric). -/
def get_field_confidence (invoice_data : Json) (field_path : String) :
    Option Json :=
  match navigate invoice_data (splitDot field_path) with
  | some (.obj fs) => jlookup "confidence" fs
  | _ => none

mutual
/-- The recursive `extract_confidences` closure of
`_calculate_overall_confidence`: on a dict, first append the
`"confidence"` entry when present, then recurse into every value (including
that entry itself, exactly as `obj.values()` does); on a list recurse into
the items; other nodes contribute nothing. -/
def collectConfidences : Json → List Json
  | .obj fs =>
      (match jlookup "confidence" fs with
       | some v => [v]
       | none => []) ++ collectFields fs
  | .arr items => collectItems items
  | _ => []

/-- Recursion of `extract_confidences` over `obj.values()`. -/
def collectFields : List (String × Json) → List Json
  | [] => []
  | (_, v) :: rest => collectConfidences v ++ collectFields rest

/-- Recursion of `extract_confidences` over the items of a list. -/
def collectItems : List Json → List Json
  | [] => []
  | x :: rest => collectConfidences x ++ collectItems rest
end

/-- `_calculate_overall_confidence(invoice_data)`: collect every confidence
value in the tree; an empty collection yields `0.0`, otherwise the mean.
`none` models the `TypeError` Python's `sum` raises when a collected
`"confidence"` entry is not a number. -/
def calculate_overall_confidence (invoice_data : Json) : Option ℚ :=
  match (collectConfidences invoice_data).mapM Json.asNum with
  | none => none
  | some [] => some 0
  | some scores => some (scores.sum / scores.length)

/-- The two rejection messages of `validate_confidence`, as structured values
carrying the data interpolated into the message. -/
inductive Reason
  /-- "Critical field '{path}' is missing or not extracted. ..." -/
  | missingField (path : String)
  /-- "Critical field '{path}' has insufficient confidence ({c} < 0.5). ..." -/
  | insufficientConfidence (path : String) (confidence : ℚ)
  deriving DecidableEq, Repr

/-- One logged moderate-confidence warning: field path and its confidence. -/
abbrev Warning := String × ℚ

/-- The critical-field loop of `validate_confidence`, carrying the warnings
accumulated so far.  Produces the source's returned triple
`(is_valid, error_message, overall_confidence)` paired with the warnings the
source logs; `none` models a `TypeError` (non-numeric confidence reaching
`<` or `sum`). -/
def checkFields (invoice_data : Json) :
    List String → List Warning →
    Option ((Bool × Option Reason × ℚ) × List Warning)
  | [], warnings =>
      (calculate_overall_confidence invoice_data).map
        fun oc => ((true, none, oc), warnings)
  | field_path :: rest, warnings =>
      match get_field_confidence invoice_data field_path with
      | none => some ((false, some (.missingField field_path), 0), warnings)
      | some v =>
          match v.asNum with
          | none => none
          | some confidence =>
              if confidence < REJECTION_THRESHOLD then
                (calculate_overall_confidence invoice_data).map
                  fun oc =>
                    ((false, some (.insufficientConfidence field_path confidence),
                      oc), warnings)
              else if confidence < WARNING_THRESHOLD then
                checkFields invoice_data rest
                  (warnings ++ [(field_path, confidence)])
              else
                checkFields invoice_data rest warnings

/-- `validate_confidence(invoice_data)` from `confidence_scorer.py`. -/
def validate_confidence (invoice_data : Json) :
    Option ((Bool × Option Reason × ℚ) × List Warning) :=
  checkFields invoice_data CRITICAL_FIELDS []

/-! ## Retry Executor — `retry.py`

`retry_with_exponential_backoff` wraps an async callable from the `openai`
client.  The exception classes the source can observe are modelled with the
subclass structure of the `openai` package (v1): `APIError`,
`APIConnectionError`/`APITimeoutError`, `APIStatusError` and its
status-specific subclasses all derive from `OpenAIError`; exceptions from
outside the package (e.g. `ValueError`, `TypeError`) do not. -/

/-- Concrete exception classes an invocation may raise, covering the
`openai` hierarchy plus representatives of foreign exceptions. -/
inductive ExcType
  | openAIError
  | apiError
  | apiConnectionError
  | apiTimeoutError
  | apiStatusError
  | rateLimitError
  | authenticationError
  | badRequestError
  | valueError
  | typeError
  deriving DecidableEq, Repr

/-- Proper ancestors of each class inside the modelled hierarchy
(`Exception`/`BaseException` omitted: no `except` clause in the source names
them).  Mirrors the `openai` v1 class tree. -/
def ExcType.ancestors : ExcType → List ExcType
  | .openAIError => []
  | .apiError => [.openAIError]
  | .apiConnectionError => [.apiError, .openAIError]
  | .apiTimeoutError => [.apiConnectionError, .apiError, .openAIError]
  | .apiStatusError => [.apiError, .openAIError]
  | .rateLimitError => [.apiStatusError, .apiError, .openAIError]
  | .authenticationError => [.apiStatusError, .apiError, .openAIError]
  | .badRequestError => [.apiStatusError, .apiError, .openAIError]
  | .valueError => []
  | .typeError => []

/-- Python `isinstance(e, c)`: the exception's class is `c` or derives
from it. -/
def isInstanceOf (e c : ExcType) : Bool :=
  e = c ∨ c ∈ e.ancestors

/-- The `except retryable_errors` clause of the source, with
`retryable_errors = (RateLimitError, APITimeoutError, OpenAIError)`:
the raised exception is caught iff it is an instance of one of the three. -/
def caughtByRetryable (e : ExcType) : Bool :=
  isInstanceOf e .rateLimitError || isInstanceOf e .apiTimeoutError ||
    isInstanceOf e .openAIError

/-- Outcome of one invocation of the wrapped callable. -/
inductive Outcome (α : Type)
  | success (v : α)
  | failure (e : ExcType)

/-- Observable trace of one `retry_with_exponential_backoff` run: the final
result (`Except` for the re-raised exception), the sequence of backoff
delays slept, and how many times the callable was invoked. -/
structure RetryTrace (α : Type) where
  result : Except ExcType α
  delays : List ℚ
  invocations : Nat

/-- The `for attempt in range(max_retries + 1)` loop of
`retry_with_exponential_backoff`.  `func` gives the outcome of each
invocation, indexed by attempt number (the callable may behave differently
per call); `jf` is the oracle for `random.uniform(0.5, 1.5)`, indexed by the
attempt whose failure triggers the draw.  `retriesLeft` is
`max_retries - attempt`, so `retriesLeft = 0` is the source's
`attempt >= max_retries` exhaustion test. -/
def retryLoop {α : Type} (func : Nat → Outcome α)
    (initial_delay backoff_factor : ℚ) (jitter : Bool) (jf : Nat → ℚ)
    (attempt : Nat) : Nat → RetryTrace α
  | 0 =>
      -- `attempt >= max_retries`: a caught exception is re-raised
      -- (exhaustion), an uncaught one propagates; either way no retry.
      match func attempt with
      | .success v => { result := .ok v, delays := [], invocations := 1 }
      | .failure e => { result := .error e, delays := [], invocations := 1 }
  | r + 1 =>
      match func attempt with
      | .success v => { result := .ok v, delays := [], invocations := 1 }
      | .failure e =>
          if caughtByRetryable e then
            let delay₀ := initial_delay * backoff_factor ^ attempt
            let delay := if jitter then delay₀ * jf attempt else delay₀
            let rest :=
              retryLoop func initial_delay backoff_factor jitter jf
                (attempt + 1) r
            { result := rest.result,
              delays := delay :: rest.delays,
              invocations := rest.invocations + 1 }
          else
            { result := .error e, delays := [], invocations := 1 }

/-- `retry_with_exponential_backoff(func, max_retries, initial_delay,
backoff_factor, jitter)`: run the attempt loop from attempt 0 with
`max_retries` retries available. -/
def retry_with_exponential_backoff {α : Type} (func : Nat → Outcome α)
    (max_retries : Nat) (initial_delay backoff_factor : ℚ) (jitter : Bool)
    (jf : Nat → ℚ) : RetryTrace α :=
  retryLoop func initial_delay backoff_factor jitter jf 0 max_retries

/-! ## File Gate theorems -/

/-- Any `ok` result of stages 6–7 carries the input bytes unchanged and the
stage-7 resolution of the MIME type. -/
lemma finishValidation_ok (content : List Nat) (declared : Option String)
    (detected : String) (out : List Nat × Option String)
    (h : finishValidation content declared detected = .ok out) :
    out = (content, if detected ∈ GENERIC_TYPES then declared
      else some detected) := by
  unfold finishValidation at h
  split at h
  · exact absurd h (by simp)
  · rcases h with ⟨⟩
    by_cases hg : detected ∈ GENERIC_TYPES <;> simp [hg]

/-- Any `ok` result of `validate_file` comes from `finishValidation`. -/
lemma validate_file_ok (content : List Nat) (declared : Option String)
    (detected : String) (out : List Nat × Option String)
    (h : validate_file content declared detected = .ok out) :
    out = (content, if detected ∈ GENERIC_TYPES then declared
      else some detected) := by
  unfold validate_file at h
  split_ifs at h
  · exact finishValidation_ok content declared detected out h
  · exact finishValidation_ok content declared detected out h

/-- C1 (counterexample): an upload sniffed as `application/zip` with declared
type `application/pdf` is rejected by the allow-list check on the detected
type (the `UnsupportedType` raise site), not by the `TypeMismatch` raise
site, contrary to the claim. -/
theorem C1_counterexample_zip_declared_pdf :
    validate_file [80, 75, 3, 4] (some "application/pdf") "application/zip" =
      .error (.unsupportedDetected "application/zip") ∧
    ¬ ∃ d det, validate_file [80, 75, 3, 4] (some "application/pdf")
      "application/zip" = .error (.typeMismatch d det) := by
  refine ⟨rfl, ?_⟩
  rintro ⟨d, det, h⟩
  rw [show validate_file [80, 75, 3, 4] (some "application/pdf")
      "application/zip" = .error (.unsupportedDetected "application/zip")
      from rfl] at h
  simp at h

/-- C1 (amended): for every non-empty upload within the size limit whose
content sniffs to `application/zip`, whatever the declared content type,
the File Gate rejects with the `UnsupportedType` category (the detected type
fails the allow-list before the spoofing check is reached), carrying HTTP
status 415. -/
theorem C1_amended_zip_rejected_unsupported_type (content : List Nat)
    (declared : Option String) (h0 : content.length ≠ 0)
    (h1 : content.length ≤ MAX_FILE_SIZE) :
    validate_file content declared "application/zip" =
      .error (.unsupportedDetected "application/zip") ∧
    (FileReject.unsupportedDetected "application/zip").statusCode = 415 := by
  refine ⟨?_, rfl⟩
  unfold validate_file
  rw [if_neg h0, if_neg (not_lt.mpr h1),
    if_pos (by decide : ("application/zip" : String) ∉ GENERIC_TYPES),
    if_pos (by decide : ("application/zip" : String) ∉ ALLOWED_MIME_TYPES)]

/-- Witness for C1 (amended) at a concrete ZIP-signature upload. -/
theorem C1_amended_witness :
    validate_file [80, 75, 3, 4] (some "application/pdf") "application/zip" =
      .error (.unsupportedDetected "application/zip") :=
  (C1_amended_zip_rejected_unsupported_type [80, 75, 3, 4]
    (some "application/pdf") (by decide) (by decide)).1

/-- C8: every upload the File Gate accepts is returned byte-for-byte
unchanged, and the resolved MIME type is the sniffed type whenever sniffing
was specific (not generic), falling back to the declared type only when
sniffing was generic. -/
theorem C8_accept_returns_bytes_and_resolved_type (content : List Nat)
    (declared : Option String) (detected : String)
    (out : List Nat × Option String)
    (h : validate_file content declared detected = .ok out) :
    out.1 = content ∧
    out.2 = (if detected ∈ GENERIC_TYPES then declared else some detected) := by
  have := validate_file_ok content declared detected out h
  subst this
  exact ⟨rfl, rfl⟩

/-- Witness for C8: a file with PDF magic bytes (`%PDF-1.4`) declared as
`application/pdf` is accepted with the same bytes and resolved type
`application/pdf`. -/
theorem C8_witness :
    validate_file [37, 80, 68, 70, 45, 49, 46, 52] (some "application/pdf")
        "application/pdf" =
      .ok ([37, 80, 68, 70, 45, 49, 46, 52], some "application/pdf") ∧
    ([37, 80, 68, 70, 45, 49, 46, 52],
        (some "application/pdf" : Option String)).1 =
      [37, 80, 68, 70, 45, 49, 46, 52] := by
  have h : validate_file [37, 80, 68, 70, 45, 49, 46, 52]
      (some "application/pdf") "application/pdf" =
      .ok ([37, 80, 68, 70, 45, 49, 46, 52], some "application/pdf") := rfl
  exact ⟨h, (C8_accept_returns_bytes_and_resolved_type _ _ _ _ h).1⟩

/-! ## Confidence Gate lemmas -/

/-- Unfolding `_calculate_overall_confidence` when every collected confidence
entry is numeric. -/
lemma calculate_overall_eq (t : Json) (l : List ℚ)
    (hl : (collectConfidences t).mapM Json.asNum = some l) :
    calculate_overall_confidence t =
      some (if l = [] then 0 else l.sum / l.length) := by
  unfold calculate_overall_confidence
  rw [hl]
  cases l with
  | nil => simp
  | cons a as => simp

/-- When every field in the list passes the rejection threshold, the loop
runs to completion and returns the accepting triple with the overall mean. -/
lemma checkFields_all_pass (t : Json) :
    ∀ (fields : List String) (w0 : List Warning),
    (∀ p ∈ fields, ∃ q, get_field_confidence t p = some (.num q) ∧
      REJECTION_THRESHOLD ≤ q) →
    ∃ w, checkFields t fields w0 =
      (calculate_overall_confidence t).map fun oc => ((true, none, oc), w)
  | [], w0, _ => ⟨w0, rfl⟩
  | p :: rest, w0, H => by
      obtain ⟨q, hq, hge⟩ := H p (List.mem_cons_self p rest)
      have Hrest : ∀ x ∈ rest, ∃ q, get_field_confidence t x = some (.num q) ∧
          REJECTION_THRESHOLD ≤ q := fun x hx => H x (List.mem_cons_of_mem _ hx)
      simp only [checkFields, hq, Json.asNum]
      rw [if_neg (not_lt.mpr hge)]
      by_cases hw : q < WARNING_THRESHOLD
      · rw [if_pos hw]
        exact checkFields_all_pass t rest (w0 ++ [(p, q)]) Hrest
      · rw [if_neg hw]
        exact checkFields_all_pass t rest w0 Hrest

/-- When every field in the list is at or above the warning threshold, the
loop accepts without recording any warning beyond those already present. -/
lemma checkFields_all_confident (t : Json) :
    ∀ (fields : List String) (w0 : List Warning),
    (∀ p ∈ fields, ∃ q, get_field_confidence t p = some (.num q) ∧
      WARNING_THRESHOLD ≤ q) →
    checkFields t fields w0 =
      (calculate_overall_confidence t).map fun oc => ((true, none, oc), w0)
  | [], _, _ => rfl
  | p :: rest, w0, H => by
      obtain ⟨q, hq, hge⟩ := H p (List.mem_cons_self p rest)
      have Hrest : ∀ x ∈ rest, ∃ q, get_field_confidence t x = some (.num q) ∧
          WARNING_THRESHOLD ≤ q := fun x hx => H x (List.mem_cons_of_mem _ hx)
      have hge' : REJECTION_THRESHOLD ≤ q :=
        le_trans (by norm_num [REJECTION_THRESHOLD, WARNING_THRESHOLD]) hge
      simp only [checkFields, hq, Json.asNum]
      rw [if_neg (not_lt.mpr hge'), if_neg (not_lt.mpr hge)]
      exact checkFields_all_confident t rest w0 Hrest

/-- When every field before `p` passes and `p` has no confidence entry, the
loop stops at `p` with the missing-field rejection and overall 0, whatever
the fields after `p` or the rest of the tree hold. -/
lemma checkFields_first_missing (t : Json) :
    ∀ (pre : List String) (p : String) (rest : List String)
      (w0 : List Warning),
    (∀ x ∈ pre, ∃ q, get_field_confidence t x = some (.num q) ∧
      REJECTION_THRESHOLD ≤ q) →
    get_field_confidence t p = none →
    ∃ w, checkFields t (pre ++ p :: rest) w0 =
      some ((false, some (.missingField p), 0), w)
  | [], p, rest, w0, _, Hp => ⟨w0, by simp only [List.nil_append, checkFields, Hp]⟩
  | x :: pre, p, rest, w0, Hpre, Hp => by
      obtain ⟨q, hq, hge⟩ := Hpre x (List.mem_cons_self x pre)
      have Hpre' : ∀ y ∈ pre, ∃ q, get_field_confidence t y = some (.num q) ∧
          REJECTION_THRESHOLD ≤ q :=
        fun y hy => Hpre y (List.mem_cons_of_mem _ hy)
      rw [List.cons_append]
      simp only [checkFields, hq, Json.asNum]
      rw [if_neg (not_lt.mpr hge)]
      by_cases hw : q < WARNING_THRESHOLD
      · rw [if_pos hw]
        exact checkFields_first_missing t pre p rest (w0 ++ [(x, q)]) Hpre' Hp
      · rw [if_neg hw]
        exact checkFields_first_missing t pre p rest w0 Hpre' Hp

/-- When every field before `p` passes and `p` carries a confidence strictly
below the rejection threshold, the loop stops at `p` with the
insufficient-confidence rejection naming `p` and its confidence, and the
overall confidence is still the mean computed from the full tree. -/
lemma checkFields_first_low (t : Json) :
    ∀ (pre : List String) (p : String) (rest : List String)
      (w0 : List Warning) (q : ℚ),
    (∀ x ∈ pre, ∃ q', get_field_confidence t x = some (.num q') ∧
      REJECTION_THRESHOLD ≤ q') →
    get_field_confidence t p = some (.num q) →
    q < REJECTION_THRESHOLD →
    ∃ w, checkFields t (pre ++ p :: rest) w0 =
      (calculate_overall_confidence t).map fun oc =>
        ((false, some (.insufficientConfidence p q), oc), w)
  | [], p, rest, w0, q, _, Hp, hlow => by
      refine ⟨w0, ?_⟩
      simp only [List.nil_append, checkFields, Hp, Json.asNum]
      rw [if_pos hlow]
  | x :: pre, p, rest, w0, q, Hpre, Hp, hlow => by
      obtain ⟨q', hq, hge⟩ := Hpre x (List.mem_cons_self x pre)
      have Hpre' : ∀ y ∈ pre, ∃ q', get_field_confidence t y = some (.num q') ∧
          REJECTION_THRESHOLD ≤ q' :=
        fun y hy => Hpre y (List.mem_cons_of_mem _ hy)
      rw [List.cons_append]
      simp only [checkFields, hq, Json.asNum]
      rw [if_neg (not_lt.mpr hge)]
      by_cases hw : q' < WARNING_THRESHOLD
      · rw [if_pos hw]
        exact checkFields_first_low t pre p rest (w0 ++ [(x, q')]) q Hpre' Hp hlow
      · rw [if_neg hw]
        exact checkFields_first_low t pre p rest w0 q Hpre' Hp hlow

/-! ## Concrete invoice trees used as witnesses and counterexamples -/

/-- A ScoredField leaf `{"value": ..., "confidence": q}`. -/
def scoredField (q : ℚ) : Json :=
  .obj [("value", .str "x"), ("confidence", .num q)]

/-- An invoice tree whose six critical-field leaves are the given nodes. -/
def criticalTree (s c n i d a : Json) : Json :=
  .obj [("supplier", .obj [("name", s)]),
        ("customer", .obj [("name", c)]),
        ("invoice", .obj [("number", n), ("issue_date", i),
          ("due_date", d), ("total_amount", a)])]

/-- The spec's six-score example tree: confidences
0.90, 0.80, 0.70, 1.00, 1.00, 0.60. -/
def sixScoreTree : Json :=
  criticalTree (scoredField (9/10)) (scoredField (8/10)) (scoredField (7/10))
    (scoredField 1) (scoredField 1) (scoredField (6/10))

/-- All six critical fields at confidence exactly 0.50. -/
def halfTree : Json :=
  criticalTree (scoredField (1/2)) (scoredField (1/2)) (scoredField (1/2))
    (scoredField (1/2)) (scoredField (1/2)) (scoredField (1/2))

/-- All six critical fields at confidence exactly 0.90. -/
def confidentTree : Json :=
  criticalTree (scoredField (9/10)) (scoredField (9/10)) (scoredField (9/10))
    (scoredField (9/10)) (scoredField (9/10)) (scoredField (9/10))

/-- `supplier.name` at confidence 0.30 and `customer.name` entirely absent;
the remaining critical fields are at 0.90. -/
def lowSupplierNoCustomerTree : Json :=
  .obj [("supplier", .obj [("name", scoredField (3/10))]),
        ("customer", .obj []),
        ("invoice", .obj [("number", scoredField (9/10)),
          ("issue_date", scoredField (9/10)), ("due_date", scoredField (9/10)),
          ("total_amount", scoredField (9/10))])]

/-- `customer.name` entirely absent; every other critical field at 0.90. -/
def missingCustomerTree : Json :=
  .obj [("supplier", .obj [("name", scoredField (9/10))]),
        ("customer", .obj []),
        ("invoice", .obj [("number", scoredField (9/10)),
          ("issue_date", scoredField (9/10)), ("due_date", scoredField (9/10)),
          ("total_amount", scoredField (9/10))])]

/-- `customer.name` present but a bare string rather than a ScoredField
mapping; every other critical field is a proper ScoredField. -/
def bareCustomerTree : Json :=
  criticalTree (scoredField (9/10)) (.str "ACME") (scoredField (9/10))
    (scoredField 1) (scoredField 1) (scoredField (6/10))

/-! ## Confidence Gate theorems -/

/-- C2: when all six critical fields are present at or above the rejection
threshold, the gate accepts and its overall confidence is the unweighted
arithmetic mean of every confidence score collected anywhere in the tree;
zero collected scores yield 0.0; the result is invariant under permutation
of the collected scores (order-independent); and on the spec's six-score
example the mean is 5/6, within 0.005 of 0.8333. -/
theorem C2_overall_confidence_is_flat_mean :
    (∀ (t : Json) (l : List ℚ),
      (∀ p ∈ CRITICAL_FIELDS, ∃ q, get_field_confidence t p = some (.num q) ∧
        REJECTION_THRESHOLD ≤ q) →
      (collectConfidences t).mapM Json.asNum = some l →
      ∃ w, validate_confidence t =
        some ((true, none, if l = [] then 0 else l.sum / l.length), w)) ∧
    (∀ t : Json, collectConfidences t = [] →
      calculate_overall_confidence t = some 0) ∧
    (∀ (t₁ t₂ : Json) (l₁ l₂ : List ℚ),
      (collectConfidences t₁).mapM Json.asNum = some l₁ →
      (collectConfidences t₂).mapM Json.asNum = some l₂ →
      l₁.Perm l₂ →
      calculate_overall_confidence t₁ = calculate_overall_confidence t₂) ∧
    (calculate_overall_confidence sixScoreTree = some (5/6) ∧
      |(5 : ℚ)/6 - 8333/10000| ≤ 5/1000) := by
  refine ⟨?_, ?_, ?_, by decide, by rw [abs_le]; norm_num⟩
  · intro t l H hl
    obtain ⟨w, hw⟩ := checkFields_all_pass t CRITICAL_FIELDS [] H
    refine ⟨w, ?_⟩
    rw [validate_confidence, hw, calculate_overall_eq t l hl]
    rfl
  · intro t h
    unfold calculate_overall_confidence
    rw [h]
    rfl
  · intro t₁ t₂ l₁ l₂ h₁ h₂ hp
    rw [calculate_overall_eq t₁ l₁ h₁, calculate_overall_eq t₂ l₂ h₂]
    by_cases hnil : l₁ = []
    · subst hnil
      have h2 : l₂ = [] := hp.symm.eq_nil
      subst h2
      rfl
    · have hnil₂ : l₂ ≠ [] := fun h2 => hnil ((h2 ▸ hp).eq_nil)
      rw [if_neg hnil, if_neg hnil₂, hp.sum_eq, hp.length_eq]

/-- Witness for C2 on the six-score example tree. -/
theorem C2_witness :
    ∃ w, validate_confidence sixScoreTree =
      some ((true, none,
        if ([9/10, 8/10, 7/10, 1, 1, 6/10] : List ℚ) = [] then 0
        else ([9/10, 8/10, 7/10, 1, 1, 6/10] : List ℚ).sum /
          ([9/10, 8/10, 7/10, 1, 1, 6/10] : List ℚ).length), w) :=
  C2_overall_confidence_is_flat_mean.1 sixScoreTree
    [9/10, 8/10, 7/10, 1, 1, 6/10]
    (by
      intro p hp
      fin_cases hp
      · exact ⟨9/10, rfl, by norm_num [REJECTION_THRESHOLD]⟩
      · exact ⟨8/10, rfl, by norm_num [REJECTION_THRESHOLD]⟩
      · exact ⟨7/10, rfl, by norm_num [REJECTION_THRESHOLD]⟩
      · exact ⟨1, rfl, by norm_num [REJECTION_THRESHOLD]⟩
      · exact ⟨1, rfl, by norm_num [REJECTION_THRESHOLD]⟩
      · exact ⟨6/10, rfl, by norm_num [REJECTION_THRESHOLD]⟩)
    (by decide)

/-- C3 (counterexample): in `lowSupplierNoCustomerTree` the critical field
`customer.name` is entirely absent, yet the gate rejects for the low
confidence of `supplier.name` (checked earlier in the fixed order) with
overall confidence 39/50 ≠ 0 — so absence of a critical field does not, for
every tree, yield the missing-field reason and overall 0.0 irrespective of
other fields' scores. -/
theorem C3_counterexample_low_field_before_missing :
    get_field_confidence lowSupplierNoCustomerTree "customer.name" = none ∧
    validate_confidence lowSupplierNoCustomerTree =
      some ((false,
        some (.insufficientConfidence "supplier.name" (3/10)), 39/50), []) ∧
    Reason.insufficientConfidence "supplier.name" (3/10) ≠
      .missingField "customer.name" ∧
    (39 : ℚ)/50 ≠ 0 :=
  ⟨rfl, by decide, by decide, by norm_num⟩

/-- C3 (amended): for every tree in which a critical field is entirely
absent and every critical field checked before it (in the fixed source
order) is present with confidence at least 0.50, the gate rejects with the
missing-field reason naming that field and overall confidence exactly 0.0,
regardless of everything else in the tree and without evaluating the
remaining critical fields. -/
theorem C3_amended_missing_critical_short_circuits (t : Json)
    (pre : List String) (p : String) (rest : List String)
    (hsplit : CRITICAL_FIELDS = pre ++ p :: rest)
    (Hpre : ∀ x ∈ pre, ∃ q, get_field_confidence t x = some (.num q) ∧
      REJECTION_THRESHOLD ≤ q)
    (Hp : get_field_confidence t p = none) :
    ∃ w, validate_confidence t =
      some ((false, some (.missingField p), 0), w) := by
  unfold validate_confidence
  rw [hsplit]
  exact checkFields_first_missing t pre p rest [] Hpre Hp

/-- Witness for C3 (amended): `customer.name` absent, `supplier.name` at
0.90. -/
theorem C3_amended_witness :
    ∃ w, validate_confidence missingCustomerTree =
      some ((false, some (.missingField "customer.name"), 0), w) :=
  C3_amended_missing_critical_short_circuits missingCustomerTree
    ["supplier.name"] "customer.name"
    ["invoice.number", "invoice.issue_date", "invoice.due_date",
     "invoice.total_amount"]
    rfl
    (by
      intro x hx
      fin_cases hx
      exact ⟨9/10, rfl, by norm_num [REJECTION_THRESHOLD]⟩)
    rfl

/-- C4: the thresholds are inclusive on the pass side.  (1) Six critical
fields all at exactly 0.50 are accepted, with the overall confidence the
one computed from the full tree.  (2) A critical field strictly below 0.50
(with the fields checked before it passing) rejects with a reason naming
that field and its confidence value, and the overall confidence is still
the full-tree mean, not forced to 0.0.  (3) Critical fields at or above
0.90 — in particular exactly 0.90 — produce no warning, and the warning
list never blocks acceptance. -/
theorem C4_thresholds_inclusive :
    (∀ (t : Json) (oc : ℚ),
      (∀ p ∈ CRITICAL_FIELDS, get_field_confidence t p = some (.num (1/2))) →
      calculate_overall_confidence t = some oc →
      ∃ w, validate_confidence t = some ((true, none, oc), w)) ∧
    (∀ (t : Json) (pre : List String) (p : String) (rest : List String)
        (q oc : ℚ),
      CRITICAL_FIELDS = pre ++ p :: rest →
      (∀ x ∈ pre, ∃ q', get_field_confidence t x = some (.num q') ∧
        REJECTION_THRESHOLD ≤ q') →
      get_field_confidence t p = some (.num q) →
      q < REJECTION_THRESHOLD →
      calculate_overall_confidence t = some oc →
      ∃ w, validate_confidence t =
        some ((false, some (.insufficientConfidence p q), oc), w)) ∧
    (∀ (t : Json) (oc : ℚ),
      (∀ p ∈ CRITICAL_FIELDS, ∃ q, get_field_confidence t p = some (.num q) ∧
        WARNING_THRESHOLD ≤ q) →
      calculate_overall_confidence t = some oc →
      validate_confidence t = some ((true, none, oc), [])) := by
  refine ⟨?_, ?_, ?_⟩
  · intro t oc H hoc
    obtain ⟨w, hw⟩ := checkFields_all_pass t CRITICAL_FIELDS []
      (fun p hp => ⟨1/2, H p hp, le_refl _⟩)
    refine ⟨w, ?_⟩
    rw [validate_confidence, hw, hoc]
    rfl
  · intro t pre p rest q oc hsplit Hpre Hp hlow hoc
    obtain ⟨w, hw⟩ := checkFields_first_low t pre p rest [] q Hpre Hp hlow
    refine ⟨w, ?_⟩
    rw [validate_confidence, hsplit, hw, hoc]
    rfl
  · intro t oc H hoc
    rw [validate_confidence,
      checkFields_all_confident t CRITICAL_FIELDS [] H, hoc]
    rfl

/-- Witness for C4: the all-0.50 tree is accepted with overall 1/2, and the
all-0.90 tree is accepted with no warnings. -/
theorem C4_witness :
    (∃ w, validate_confidence halfTree = some ((true, none, 1/2), w)) ∧
    validate_confidence confidentTree = some ((true, none, 9/10), []) :=
  ⟨C4_thresholds_inclusive.1 halfTree (1/2)
      (by
        intro p hp
        fin_cases hp <;> rfl)
      (by decide),
    C4_thresholds_inclusive.2.2 confidentTree (9/10)
      (by
        intro p hp
        fin_cases hp <;>
          exact ⟨9/10, rfl, le_refl _⟩)
      (by decide)⟩

/-- C9: a critical-field path that resolves to an existing node which is not
a mapping carrying a `"confidence"` key is treated exactly as an absent
field: the lookup yields `None`, and (when the fields checked before it
pass) the gate rejects with the missing-field reason and overall confidence
exactly 0.0 — not a low-confidence rejection, not acceptance. -/
theorem C9_non_fieldvalue_treated_as_missing :
    (∀ (t : Json) (path : String) (r : Json),
      navigate t (splitDot path) = some r →
      (∀ fs, r = .obj fs → jlookup "confidence" fs = none) →
      get_field_confidence t path = none) ∧
    (∀ (t : Json) (pre : List String) (p : String) (rest : List String)
        (r : Json),
      CRITICAL_FIELDS = pre ++ p :: rest →
      (∀ x ∈ pre, ∃ q, get_field_confidence t x = some (.num q) ∧
        REJECTION_THRESHOLD ≤ q) →
      navigate t (splitDot p) = some r →
      (∀ fs, r = .obj fs → jlookup "confidence" fs = none) →
      ∃ w, validate_confidence t =
        some ((false, some (.missingField p), 0), w)) := by
  have key : ∀ (t : Json) (path : String) (r : Json),
      navigate t (splitDot path) = some r →
      (∀ fs, r = .obj fs → jlookup "confidence" fs = none) →
      get_field_confidence t path = none := by
    intro t path r hnav hr
    unfold get_field_confidence
    rw [hnav]
    cases r with
    | obj fs => exact hr fs rfl
    | num q => rfl
    | str s => rfl
    | bool b => rfl
    | null => rfl
    | arr items => rfl
  refine ⟨key, ?_⟩
  intro t pre p rest r hsplit Hpre hnav hr
  have Hp := key t p r hnav hr
  unfold validate_confidence
  rw [hsplit]
  exact checkFields_first_missing t pre p rest [] Hpre Hp

/-- Witness for C9: `customer.name` resolves to the bare string node
`"ACME"`, and the gate rejects it as missing with overall 0.0. -/
theorem C9_witness :
    ∃ w, validate_confidence bareCustomerTree =
      some ((false, some (.missingField "customer.name"), 0), w) :=
  C9_non_fieldvalue_treated_as_missing.2 bareCustomerTree
    ["supplier.name"] "customer.name"
    ["invoice.number", "invoice.issue_date", "invoice.due_date",
     "invoice.total_amount"]
    (.str "ACME")
    rfl
    (by
      intro x hx
      fin_cases hx
      exact ⟨9/10, rfl, by norm_num [REJECTION_THRESHOLD]⟩)
    rfl
    (fun fs h => Json.noConfusion h)

/-! ## Retry Executor lemmas -/

/-- The backoff delay the source computes before retrying after a failure at
`attempt`: `initial_delay * backoff_factor ** attempt`, scaled by the jitter
draw when jitter is enabled. -/
def expectedDelay (d m : ℚ) (jitter : Bool) (jf : Nat → ℚ) (i : Nat) : ℚ :=
  if jitter then d * m ^ i * jf i else d * m ^ i

/-- A successful invocation returns at once: no delay, one invocation. -/
lemma retryLoop_success {α : Type} (func : Nat → Outcome α) (d m : ℚ)
    (jitter : Bool) (jf : Nat → ℚ) (attempt r : Nat) (v : α)
    (h : func attempt = .success v) :
    retryLoop func d m jitter jf attempt r =
      { result := .ok v, delays := [], invocations := 1 } := by
  cases r <;> simp [retryLoop, h]

/-- A caught failure with retries left sleeps one backoff delay and
recurses at the next attempt. -/
lemma retryLoop_transient_step {α : Type} (func : Nat → Outcome α) (d m : ℚ)
    (jitter : Bool) (jf : Nat → ℚ) (attempt r : Nat) (e : ExcType)
    (h : func attempt = .failure e) (hc : caughtByRetryable e = true) :
    retryLoop func d m jitter jf attempt (r + 1) =
      { result := (retryLoop func d m jitter jf (attempt + 1) r).result,
        delays := expectedDelay d m jitter jf attempt ::
          (retryLoop func d m jitter jf (attempt + 1) r).delays,
        invocations :=
          (retryLoop func d m jitter jf (attempt + 1) r).invocations + 1 } := by
  simp [retryLoop, h, hc, expectedDelay]

/-- An uncaught failure propagates at once: no delay, one invocation,
whatever the remaining retry budget. -/
lemma retryLoop_fatal {α : Type} (func : Nat → Outcome α) (d m : ℚ)
    (jitter : Bool) (jf : Nat → ℚ) (attempt r : Nat) (e : ExcType)
    (h : func attempt = .failure e) (hc : caughtByRetryable e = false) :
    retryLoop func d m jitter jf attempt r =
      { result := .error e, delays := [], invocations := 1 } := by
  cases r <;> simp [retryLoop, h, hc]

/-- Every recorded delay follows the exponential-backoff formula at the
attempt it was computed for, whatever the invocation outcomes are. -/
lemma retryLoop_delays_get {α : Type} (func : Nat → Outcome α) (d m : ℚ)
    (jitter : Bool) (jf : Nat → ℚ) :
    ∀ (r attempt i : Nat),
      i < (retryLoop func d m jitter jf attempt r).delays.length →
      (retryLoop func d m jitter jf attempt r).delays.get? i =
        some (expectedDelay d m jitter jf (attempt + i))
  | 0, attempt, i, hi => by
      exfalso
      cases hf : func attempt <;> simp [retryLoop, hf] at hi
  | r + 1, attempt, i, hi => by
      cases hf : func attempt with
      | success v => rw [retryLoop_success func d m jitter jf attempt _ v hf] at hi; simp at hi
      | failure e =>
        cases hc : caughtByRetryable e with
        | false => rw [retryLoop_fatal func d m jitter jf attempt _ e hf hc] at hi; simp at hi
        | true =>
          rw [retryLoop_transient_step func d m jitter jf attempt r e hf hc] at hi ⊢
          cases i with
          | zero => simp
          | succ i =>
              simp only [List.length_cons, Nat.succ_lt_succ_iff] at hi
              have IH := retryLoop_delays_get func d m jitter jf r (attempt + 1) i hi
              simp only [List.get?_cons_succ, IH]
              rw [show attempt + 1 + i = attempt + (i + 1) from by omega]

/-- When the invocations at attempts `attempt, …, attempt + k - 1` all fail
transiently and attempt `attempt + k` succeeds (with `k` within the retry
budget), the executor returns that success after exactly `k + 1`
invocations. -/
lemma retryLoop_succeeds_after {α : Type} (func : Nat → Outcome α) (d m : ℚ)
    (jitter : Bool) (jf : Nat → ℚ) (v : α) :
    ∀ (k attempt r : Nat), k ≤ r →
    (∀ j < k, ∃ e, func (attempt + j) = .failure e ∧
      caughtByRetryable e = true) →
    func (attempt + k) = .success v →
    (retryLoop func d m jitter jf attempt r).result = .ok v ∧
    (retryLoop func d m jitter jf attempt r).invocations = k + 1
  | 0, attempt, r, _, _, hs => by
      rw [retryLoop_success func d m jitter jf attempt r v
        (by simpa using hs)]
      exact ⟨rfl, rfl⟩
  | k + 1, attempt, r, hkr, Hf, hs => by
      obtain ⟨e, he, hc⟩ := Hf 0 (Nat.succ_pos k)
      rw [Nat.add_zero] at he
      obtain ⟨r', rfl⟩ : ∃ r', r = r' + 1 := ⟨r - 1, by omega⟩
      rw [retryLoop_transient_step func d m jitter jf attempt r' e he hc]
      have IH := retryLoop_succeeds_after func d m jitter jf v k (attempt + 1)
        r' (by omega)
        (fun j hj => by
          obtain ⟨e', he', hc'⟩ := Hf (j + 1) (by omega)
          exact ⟨e', by
            rw [show attempt + 1 + j = attempt + (j + 1) from by omega]
            exact he', hc'⟩)
        (by
          rw [show attempt + 1 + k = attempt + (k + 1) from by omega]
          exact hs)
      exact ⟨IH.1, by simp [IH.2]⟩

/-- When every invocation up to and including the one at `attempt + r` fails
transiently, the executor performs all `r + 1` invocations, sleeps the full
backoff schedule, and re-raises the last error. -/
lemma retryLoop_all_fail {α : Type} (func : Nat → Outcome α) (d m : ℚ)
    (jitter : Bool) (jf : Nat → ℚ) :
    ∀ (r attempt : Nat) (elast : ExcType),
    (∀ j ≤ r, ∃ e, func (attempt + j) = .failure e ∧
      caughtByRetryable e = true) →
    func (attempt + r) = .failure elast →
    retryLoop func d m jitter jf attempt r =
      { result := .error elast,
        delays := (List.range r).map
          (fun i => expectedDelay d m jitter jf (attempt + i)),
        invocations := r + 1 }
  | 0, attempt, elast, _, hlast => by
      rw [Nat.add_zero] at hlast
      simp [retryLoop, hlast]
  | r + 1, attempt, elast, H, hlast => by
      obtain ⟨e, he, hc⟩ := H 0 (Nat.zero_le _)
      rw [Nat.add_zero] at he
      rw [retryLoop_transient_step func d m jitter jf attempt r e he hc]
      have IH := retryLoop_all_fail func d m jitter jf r (attempt + 1) elast
        (fun j hj => by
          obtain ⟨e', he', hc'⟩ := H (j + 1) (by omega)
          exact ⟨e', by
            rw [show attempt + 1 + j = attempt + (j + 1) from by omega]
            exact he', hc'⟩)
        (by
          rw [show attempt + 1 + r = attempt + (r + 1) from by omega]
          exact hlast)
      rw [IH]
      have hdel : expectedDelay d m jitter jf attempt ::
          (List.range r).map
            (fun i => expectedDelay d m jitter jf (attempt + 1 + i)) =
          (List.range (r + 1)).map
            (fun i => expectedDelay d m jitter jf (attempt + i)) := by
        rw [List.range_succ_eq_map, List.map_cons, List.map_map]
        have hfun : ((fun i => expectedDelay d m jitter jf (attempt + i)) ∘
            Nat.succ) =
            (fun i => expectedDelay d m jitter jf (attempt + 1 + i)) := by
          funext i
          show expectedDelay d m jitter jf (attempt + Nat.succ i) = _
          congr 1
          omega
        rw [hfun]
        simp
      rw [hdel]

/-! ## Retry Executor theorems -/

/-- C5: in every run, the `i`-th backoff delay (the delay before retry
`i + 1`) equals `initial_delay * backoff_factor ^ i`, multiplied by the
jitter draw for that attempt when jitter is enabled; when the draws lie in
[0.5, 1.5] the jittered delay lies within ±50% of the unjittered one; and
with `initial_delay = 1.0`, `backoff_factor = 2.0`, jitter disabled and
`max_retries = 3`, consecutive transient failures produce delays of exactly
1.0, 2.0 and 4.0 seconds before the 4th and final attempt. -/
theorem C5_backoff_delay_formula :
    (∀ (α : Type) (func : Nat → Outcome α) (max_retries : Nat) (d m : ℚ)
        (jitter : Bool) (jf : Nat → ℚ) (i : Nat),
      i < (retry_with_exponential_backoff func max_retries d m jitter
        jf).delays.length →
      (retry_with_exponential_backoff func max_retries d m jitter
        jf).delays.get? i =
        some (if jitter then d * m ^ i * jf i else d * m ^ i)) ∧
    (∀ (α : Type) (func : Nat → Outcome α) (max_retries : Nat) (d m : ℚ)
        (jf : Nat → ℚ) (i : Nat),
      0 ≤ d → 0 ≤ m → 1/2 ≤ jf i → jf i ≤ 3/2 →
      i < (retry_with_exponential_backoff func max_retries d m true
        jf).delays.length →
      ∃ del, (retry_with_exponential_backoff func max_retries d m true
          jf).delays.get? i = some del ∧
        d * m ^ i * (1/2) ≤ del ∧ del ≤ d * m ^ i * (3/2)) ∧
    (∀ (α : Type) (func : Nat → Outcome α) (jf : Nat → ℚ) (elast : ExcType),
      (∀ j ≤ 3, ∃ e, func j = .failure e ∧ caughtByRetryable e = true) →
      func 3 = .failure elast →
      (retry_with_exponential_backoff func 3 1 2 false jf).delays =
        [1, 2, 4] ∧
      (retry_with_exponential_backoff func 3 1 2 false jf).invocations =
        4) := by
  have main : ∀ (α : Type) (func : Nat → Outcome α) (max_retries : Nat)
      (d m : ℚ) (jitter : Bool) (jf : Nat → ℚ) (i : Nat),
      i < (retry_with_exponential_backoff func max_retries d m jitter
        jf).delays.length →
      (retry_with_exponential_backoff func max_retries d m jitter
        jf).delays.get? i =
        some (if jitter then d * m ^ i * jf i else d * m ^ i) := by
    intro α func max_retries d m jitter jf i hi
    have h := retryLoop_delays_get func d m jitter jf max_retries 0 i hi
    rw [retry_with_exponential_backoff, h, expectedDelay, Nat.zero_add]
  refine ⟨main, ?_, ?_⟩
  · intro α func max_retries d m jf i hd hm hlo hhi hi
    refine ⟨d * m ^ i * jf i, ?_, ?_, ?_⟩
    · have h := main α func max_retries d m true jf i hi
      rw [h, if_pos rfl]
    · have hbase : (0:ℚ) ≤ d * m ^ i := mul_nonneg hd (pow_nonneg hm i)
      exact mul_le_mul_of_nonneg_left hlo hbase
    · have hbase : (0:ℚ) ≤ d * m ^ i := mul_nonneg hd (pow_nonneg hm i)
      exact mul_le_mul_of_nonneg_left hhi hbase
  · intro α func jf elast H hlast
    have h := retryLoop_all_fail func 1 2 false jf 3 0 elast
      (fun j hj => by simpa using H j hj)
      (by simpa using hlast)
    rw [retry_with_exponential_backoff, h]
    refine ⟨?_, rfl⟩
    simp [expectedDelay, List.range_succ]
    norm_num

/-- Witness for C5: every attempt raising `RateLimitError` with the
policy `initial_delay = 1, backoff_factor = 2, jitter = false,
max_retries = 3` gives the delay schedule [1, 2, 4] over 4 invocations. -/
theorem C5_witness :
    (retry_with_exponential_backoff
        (fun _ => (Outcome.failure .rateLimitError : Outcome Nat)) 3 1 2
        false (fun _ => 1)).delays = [1, 2, 4] ∧
    (retry_with_exponential_backoff
        (fun _ => (Outcome.failure .rateLimitError : Outcome Nat)) 3 1 2
        false (fun _ => 1)).invocations = 4 :=
  C5_backoff_delay_formula.2.2 Nat
    (fun _ => Outcome.failure .rateLimitError) (fun _ => 1) .rateLimitError
    (fun _ _ => ⟨.rateLimitError, rfl, rfl⟩) rfl

/-- C6: if the invocations at attempts `0, …, k-1` fail transiently and
attempt `k` succeeds (k within the retry budget), the executor returns that
success after exactly `k + 1` invocations — in particular two transient
failures followed by success mean exactly 3 invocations; and when every
one of the `max_retries + 1` invocations fails transiently, the last
transient error is propagated after exactly `max_retries + 1`
invocations. -/
theorem C6_retry_until_success_or_exhaustion :
    (∀ (α : Type) (func : Nat → Outcome α) (v : α) (max_retries k : Nat)
        (d m : ℚ) (jitter : Bool) (jf : Nat → ℚ),
      k ≤ max_retries →
      (∀ j < k, ∃ e, func j = .failure e ∧ caughtByRetryable e = true) →
      func k = .success v →
      (retry_with_exponential_backoff func max_retries d m jitter
        jf).result = .ok v ∧
      (retry_with_exponential_backoff func max_retries d m jitter
        jf).invocations = k + 1) ∧
    (∀ (α : Type) (func : Nat → Outcome α) (max_retries : Nat) (d m : ℚ)
        (jitter : Bool) (jf : Nat → ℚ) (elast : ExcType),
      (∀ j ≤ max_retries, ∃ e, func j = .failure e ∧
        caughtByRetryable e = true) →
      func max_retries = .failure elast →
      (retry_with_exponential_backoff func max_retries d m jitter
        jf).result = .error elast ∧
      (retry_with_exponential_backoff func max_retries d m jitter
        jf).invocations = max_retries + 1) := by
  constructor
  · intro α func v max_retries k d m jitter jf hk Hf hs
    exact retryLoop_succeeds_after func d m jitter jf v k 0 max_retries hk
      (fun j hj => by simpa using Hf j hj) (by simpa using hs)
  · intro α func max_retries d m jitter jf elast H hlast
    have h := retryLoop_all_fail func d m jitter jf max_retries 0 elast
      (fun j hj => by simpa using H j hj) (by simpa using hlast)
    rw [retry_with_exponential_backoff, h]
    exact ⟨rfl, rfl⟩

/-- Witness for C6: transient failures on attempts 0 and 1 and success on
attempt 2, with `max_retries = 3`, return the success value after exactly 3
invocations. -/
theorem C6_witness :
    (retry_with_exponential_backoff
        (fun n => if n < 2 then .failure .apiTimeoutError
          else .success (42 : Nat)) 3 1 2 false (fun _ => 1)).result =
      .ok 42 ∧
    (retry_with_exponential_backoff
        (fun n => if n < 2 then .failure .apiTimeoutError
          else .success (42 : Nat)) 3 1 2 false (fun _ => 1)).invocations =
      3 :=
  C6_retry_until_success_or_exhaustion.1 Nat
    (fun n => if n < 2 then .failure .apiTimeoutError else .success 42)
    42 3 2 1 2 false (fun _ => 1) (by omega)
    (fun j hj =>
      match j, hj with
      | 0, _ => ⟨.apiTimeoutError, rfl, rfl⟩
      | 1, _ => ⟨.apiTimeoutError, rfl, rfl⟩)
    rfl

/-- C7: an uncaught (fatal) failure on the first invocation propagates
immediately — exactly one invocation, no backoff delay — whatever the
configured `max_retries`. -/
theorem C7_fatal_propagates_immediately (α : Type) (func : Nat → Outcome α)
    (e : ExcType) (max_retries : Nat) (d m : ℚ) (jitter : Bool)
    (jf : Nat → ℚ) (h : func 0 = .failure e)
    (hf : caughtByRetryable e = false) :
    retry_with_exponential_backoff func max_retries d m jitter jf =
      { result := .error e, delays := [], invocations := 1 } := by
  rw [retry_with_exponential_backoff]
  exact retryLoop_fatal func d m jitter jf 0 max_retries e h hf

/-- Witness for C7: a `ValueError` on the first attempt with
`max_retries = 3` propagates with one invocation and no delays. -/
theorem C7_witness :
    retry_with_exponential_backoff
        (fun _ => (Outcome.failure .valueError : Outcome Nat)) 3 1 2 true
        (fun _ => 1) =
      { result := .error .valueError, delays := [], invocations := 1 } :=
  C7_fatal_propagates_immediately Nat (fun _ => Outcome.failure .valueError)
    .valueError 3 1 2 true (fun _ => 1) rfl rfl

/-- C10: the transient/fatal split is exactly membership in the `OpenAIError`
hierarchy: the source's catch tuple (`RateLimitError`, `APITimeoutError`,
`OpenAIError`) catches an exception iff it is an `OpenAIError` instance;
the authentication and invalid-request subclasses are instances (as are the
rate-limit and timeout classes); an `OpenAIError` instance raised on the
first attempt is retried (two invocations when the second succeeds); and an
exception outside the hierarchy fails fast with one invocation and no
delay. -/
theorem C10_classification_by_openai_hierarchy :
    (∀ e : ExcType, caughtByRetryable e = isInstanceOf e .openAIError) ∧
    (isInstanceOf .authenticationError .openAIError = true ∧
      isInstanceOf .badRequestError .openAIError = true ∧
      isInstanceOf .rateLimitError .openAIError = true ∧
      isInstanceOf .apiTimeoutError .openAIError = true) ∧
    (∀ (α : Type) (v : α) (e : ExcType) (max_retries : Nat) (d m : ℚ)
        (jitter : Bool) (jf : Nat → ℚ),
      1 ≤ max_retries → isInstanceOf e .openAIError = true →
      (retry_with_exponential_backoff
          (fun n => if n = 0 then .failure e else .success v)
          max_retries d m jitter jf).result = .ok v ∧
      (retry_with_exponential_backoff
          (fun n => if n = 0 then .failure e else .success v)
          max_retries d m jitter jf).invocations = 2) ∧
    (∀ (α : Type) (func : Nat → Outcome α) (e : ExcType)
        (max_retries : Nat) (d m : ℚ) (jitter : Bool) (jf : Nat → ℚ),
      isInstanceOf e .openAIError = false → func 0 = .failure e →
      retry_with_exponential_backoff func max_retries d m jitter jf =
        { result := .error e, delays := [], invocations := 1 }) := by
  refine ⟨fun e => by cases e <;> rfl, ⟨rfl, rfl, rfl, rfl⟩, ?_, ?_⟩
  · intro α v e max_retries d m jitter jf hmr he
    have hc : caughtByRetryable e = true := by
      rw [caughtByRetryable, he, Bool.or_true]
    exact retryLoop_succeeds_after (fun n => if n = 0 then .failure e
        else .success v) d m jitter jf v 1 0 max_retries hmr
      (fun j hj => by
        interval_cases j
        exact ⟨e, rfl, hc⟩)
      rfl
  · intro α func e max_retries d m jitter jf he h0
    have hc : caughtByRetryable e = false := by
      cases e <;> simp_all [isInstanceOf, ExcType.ancestors, caughtByRetryable]
    rw [retry_with_exponential_backoff]
    exact retryLoop_fatal func d m jitter jf 0 max_retries e h0 hc

/-- Witness for C10: an `AuthenticationError` (an `OpenAIError` subclass) is
retried — two invocations when the retry succeeds — while a `ValueError`
fails fast with a single invocation. -/
theorem C10_witness :
    ((retry_with_exponential_backoff
        (fun n => if n = 0 then .failure .authenticationError
          else .success (7 : Nat)) 3 1 2 false (fun _ => 1)).result =
      .ok 7 ∧
    (retry_with_exponential_backoff
        (fun n => if n = 0 then .failure .authenticationError
          else .success (7 : Nat)) 3 1 2 false (fun _ => 1)).invocations =
      2) ∧
    retry_with_exponential_backoff
        (fun _ => (Outcome.failure .typeError : Outcome Nat)) 3 1 2 false
        (fun _ => 1) =
      { result := .error .typeError, delays := [], invocations := 1 } :=
  ⟨C10_classification_by_openai_hierarchy.2.2.1 Nat 7 .authenticationError
      3 1 2 false (fun _ => 1) (by omega) rfl,
    C10_classification_by_openai_hierarchy.2.2.2 Nat
      (fun _ => Outcome.failure .typeError) .typeError 3 1 2 false
      (fun _ => 1) rfl rfl⟩

end InvoiceParser
